import Mathlib

/-!
A shallow embedding of `src/RetransmittingWebSocket.ts` (retransmit.js).

The `RetransmittingWebSocket` class is an event-driven protocol engine; we
model its instance fields as a record `RWSState`, each method as a pure
function from a state (plus the incoming event payload) to a new state
together with the list of observable side effects (`Output`: frames sent on
the underlying websocket, application event dispatches, `ws.close` calls,
console warnings).  Methods that can `throw` return `Except String`.

JavaScript particulars that matter here and are modelled faithfully:
* `Uint32Array([..])` headers are little-endian byte sequences (`u32le`),
  values truncated mod 2^32;
* `Array.prototype.slice(start, end)` clamps a negative `start` to
  `max(length + start, 0)` (`jsSlice`);
* `new Uint32Array(buf, 0, 1)[0]` on a string (non-ArrayBuffer) throws.

Timers (`setTimeout` handles) are modelled by their armed state: the
close timer keeps the close event it would deliver, the unacknowledged
timer is a flag.  The firing of a timer is an explicit event in the
transition system `step`; listener (de)registration bookkeeping has no
observable protocol effect and is not modelled.
-/

namespace Retransmit

/-- The `ReadyState` enum from the source (`CONNECTING = 0, OPEN, CLOSING, CLOSED`),
used both for the engine's own state and for the underlying websocket. -/
inductive ReadyState where
  | CONNECTING
  | OPEN
  | CLOSING
  | CLOSED
deriving DecidableEq, Repr

/-- A transport message: a websocket message is either binary (a byte
sequence, each entry < 256) or text. -/
inductive TransportMsg where
  | bin (bytes : List Nat)
  | txt (s : String)
deriving DecidableEq, Repr

/-- Size of a message as computed by the source:
`typeof data === 'string' ? data.length : data.byteLength`. -/
def TransportMsg.size : TransportMsg → Nat
  | .bin bytes => bytes.length
  | .txt s => s.length

/-- A close event descriptor (`CloseEventLike`: code, reason, wasClean). -/
structure CloseEvt where
  code : Nat
  reason : String
  wasClean : Bool
deriving DecidableEq, Repr

/-- Observable side effects of one method invocation. `appMessage`,
`appOpen`, `appError`, `appClose` each stand for one dispatch occasion to
the corresponding `on*` callback plus all registered listeners. -/
inductive Output where
  | wsSend (m : TransportMsg)
  | wsClose (code : Nat) (reason : String)
  | warnAlreadyClosed
  | appMessage (body : TransportMsg)
  | appOpen
  | appError
  | appClose (e : CloseEvt)
deriving DecidableEq, Repr

/-- The `RETRANSMIT_MSG_TYPE` enum values. -/
def MSG_INITIAL_SERIAL : Nat := 1
def MSG_DATA : Nat := 2
def MSG_DATA_ACK : Nat := 3
def MSG_CLOSE : Nat := 4
def MSG_CLOSE_ACK : Nat := 5

/-- Little-endian encoding of a 32-bit word (as `Uint32Array` stores it);
the value is implicitly truncated mod 2^32. -/
def u32le (n : Nat) : List Nat :=
  [n % 256, n / 256 % 256, n / 65536 % 256, n / 16777216 % 256]

/-- Read a 32-bit little-endian word at byte `offset`
(`new Uint32Array(buffer, offset, 1)[0]`).  Missing bytes read as 0; the
source only ever reads well-formed 4- or 8-byte headers. -/
def readU32 (bytes : List Nat) (offset : Nat) : Nat :=
  bytes.getD offset 0 + 256 * bytes.getD (offset + 1) 0 +
    65536 * bytes.getD (offset + 2) 0 + 16777216 * bytes.getD (offset + 3) 0

/-- Frame `new Uint32Array([INITIAL_SERIAL, serial])`. -/
def initialSerialMsg (serial : Nat) : TransportMsg :=
  .bin (u32le MSG_INITIAL_SERIAL ++ u32le serial)

/-- Frame `new Uint32Array([DATA])`. -/
def dataHeaderMsg : TransportMsg := .bin (u32le MSG_DATA)

/-- Frame `new Uint32Array([DATA_ACK, serial])`. -/
def dataAckMsg (serial : Nat) : TransportMsg :=
  .bin (u32le MSG_DATA_ACK ++ u32le serial)

/-- Frame `new Uint32Array([CLOSE])`. -/
def closeMsg : TransportMsg := .bin (u32le MSG_CLOSE)

/-- Frame `new Uint32Array([CLOSE_ACK])`. -/
def closeAckMsg : TransportMsg := .bin (u32le MSG_CLOSE_ACK)

/-- JavaScript `list.slice(start, list.length)`: a negative `start` counts
from the end, clamped at 0 (`Int.toNat` of a negative number is 0). -/
def jsSlice {α : Type} (l : List α) (start : Int) : List α :=
  if start < 0 then l.drop ((l.length + start).toNat) else l.drop start.toNat

/-- The configuration record resolved in the constructor.
`hasWebSocketFactory` abstracts the optional `webSocketFactory`. -/
structure Config where
  maxUnacknowledgedBufferSizeBytes : Nat
  maxUnacknowledgedMessages : Nat
  maxUnacknowledgedTimeMs : Nat
  closeTimeoutMs : Nat
  reconnectIntervalMs : Nat
  hasWebSocketFactory : Bool
deriving DecidableEq, Repr

def defaultMaxBufferSizeBytes : Nat := 100000
def defaultMaxUnacknowledgedMessages : Nat := 100
def defaultMaxTimeMs : Nat := 10000
def defaultCloseTimeoutMs : Nat := 1500000
def defaultReconnectIntervalMs : Nat := 3000

/-- The configuration produced by `new RetransmittingWebSocket()` with no
overrides. -/
def defaultConfig : Config :=
  { maxUnacknowledgedBufferSizeBytes := defaultMaxBufferSizeBytes
    maxUnacknowledgedMessages := defaultMaxUnacknowledgedMessages
    maxUnacknowledgedTimeMs := defaultMaxTimeMs
    closeTimeoutMs := defaultCloseTimeoutMs
    reconnectIntervalMs := defaultReconnectIntervalMs
    hasWebSocketFactory := false }

/-- The mutable instance fields of `RetransmittingWebSocket`. The two
timeout tasks are modelled by their armed state; `closedTimeoutTask`
carries the close event its callback would deliver. `wsPresent` models
`this.ws !== undefined` and `wsReadyState` the underlying socket's ready
state. `pendingErrorEvent` records whether an error event is pending. -/
structure RWSState where
  pendingAckMessages : List TransportMsg
  receiveSerial : Nat
  processedSerial : Nat
  bufferLowestSerial : Nat
  unacknowledgedSize : Nat
  unacknowledgedMessages : Nat
  unacknowledgedTimeoutArmed : Bool
  closedTimeoutTask : Option CloseEvt
  wsPresent : Bool
  wsReadyState : ReadyState
  receivedHeader : Option TransportMsg
  pendingCloseEvent : Option CloseEvt
  pendingErrorEvent : Bool
  closeAcknowledged : Option Bool
  readyState : ReadyState
deriving DecidableEq, Repr

/-- Field initializers of a freshly constructed instance (before any
`useWebSocket` call). -/
def initialState : RWSState :=
  { pendingAckMessages := []
    receiveSerial := 0
    processedSerial := 0
    bufferLowestSerial := 0
    unacknowledgedSize := 0
    unacknowledgedMessages := 0
    unacknowledgedTimeoutArmed := false
    closedTimeoutTask := none
    wsPresent := false
    wsReadyState := .CONNECTING
    receivedHeader := none
    pendingCloseEvent := none
    pendingErrorEvent := false
    closeAcknowledged := none
    readyState := .CONNECTING }

/-- Method `sendAck()`: when the socket is present and OPEN, send
`DATA_ACK(processedSerial)`, zero both accumulators and cancel the
unacknowledged timer; otherwise do nothing. -/
def sendAck (s : RWSState) : RWSState × List Output :=
  if s.wsPresent = true ∧ s.wsReadyState = .OPEN then
    ({ s with unacknowledgedSize := 0, unacknowledgedMessages := 0,
              unacknowledgedTimeoutArmed := false },
     [.wsSend (dataAckMsg s.processedSerial)])
  else (s, [])

/-- Method `ensureUnacknowledgedTimoutTask()`: arm the timer if it is not armed. -/
def ensureUnacknowledgedTimeout (s : RWSState) : RWSState :=
  if s.unacknowledgedTimeoutArmed then s
  else { s with unacknowledgedTimeoutArmed := true }

/-- Method `cancelClosedTimeoutTask()`. -/
def cancelClosedTimeoutTask (s : RWSState) : RWSState :=
  { s with closedTimeoutTask := none }

/-- Method `ensureClosedTimeoutTask(event)`: arm the close timer with `e` unless
already CLOSING/CLOSED or already armed. -/
def ensureClosedTimeoutTask (s : RWSState) (e : CloseEvt) : RWSState :=
  if s.readyState = .CLOSING ∨ s.readyState = .CLOSED ∨ s.closedTimeoutTask.isSome then s
  else { s with closedTimeoutTask := some e }

/-- Method `closeInternal(event)`: no-op when already CLOSED; throws when not
CLOSING; otherwise cancels the close timer, moves to CLOSED, dispatches the
pending error event (if any) and then the close event. -/
def closeInternal (s : RWSState) (e : CloseEvt) : Except String (RWSState × List Output) :=
  if s.readyState = .CLOSED then .ok (s, [])
  else if s.readyState ≠ .CLOSING then
    .error "BUG. Ready state must be CLOSING before transitioning to CLOSED"
  else
    .ok ({ s with closedTimeoutTask := none, readyState := .CLOSED },
         (if s.pendingErrorEvent then [Output.appError] else []) ++ [Output.appClose e])

/-- Method `close(code, reason)`.  Note the source's guard reads
`readyState === CLOSED || readyState === CLOSED` (the literal duplication
is reproduced here), so only the CLOSED state short-circuits. -/
def close (s : RWSState) (code : Nat) (reason : String) : RWSState × List Output :=
  if s.readyState = .CLOSED ∨ s.readyState = .CLOSED then (s, [.warnAlreadyClosed])
  else
    let e : CloseEvt := { code := code, reason := reason, wasClean := true }
    let s := { s with pendingCloseEvent := some e, closeAcknowledged := some false,
                      pendingAckMessages := s.pendingAckMessages ++ [closeMsg] }
    let outs : List Output :=
      if s.wsPresent = true ∧ s.wsReadyState = .OPEN then [.wsSend closeMsg] else []
    let s := ensureClosedTimeoutTask s e
    ({ s with readyState := .CLOSING }, outs)

/-- Method `send(dataBody)`: append the `DATA` header and the body to
`pendingAckMessages`; forward both when the socket is OPEN. -/
def send (s : RWSState) (body : TransportMsg) : RWSState × List Output :=
  let s := { s with pendingAckMessages := s.pendingAckMessages ++ [dataHeaderMsg, body] }
  if s.wsPresent = true ∧ s.wsReadyState = .OPEN then
    (s, [.wsSend dataHeaderMsg, .wsSend body])
  else (s, [])

/-- Method `handleInternalWebSocketOpen(event)`: throws without a socket; cancels
the close timer unless CLOSING; sends `INITIAL_SERIAL(bufferLowestSerial)`
followed by every pending frame when the socket is OPEN; on the first open
(state CONNECTING) clears the pending error, moves to OPEN and dispatches
the open event. -/
def handleInternalWebSocketOpen (s : RWSState) : Except String (RWSState × List Output) :=
  if s.wsPresent = false then .error "BUG. Received open but no websocket was present."
  else
    let s := if s.readyState ≠ .CLOSING then cancelClosedTimeoutTask s else s
    let outs : List Output :=
      if s.wsPresent = true ∧ s.wsReadyState = .OPEN then
        Output.wsSend (initialSerialMsg s.bufferLowestSerial) ::
          s.pendingAckMessages.map Output.wsSend
      else []
    if s.readyState = .CONNECTING then
      .ok ({ s with pendingErrorEvent := false, readyState := .OPEN },
           outs ++ [Output.appOpen])
    else .ok (s, outs)

/-- Method `handleInternalWebSocketMessage(event)`.  When no header is pending the
incoming message becomes the header (and stays recorded); otherwise the
pending header is interpreted and the incoming message is the body
(`processData`).  Reading the type tag of a textual header throws, as
`new Uint32Array` does on a non-buffer. -/
def handleInternalWebSocketMessage (cfg : Config) (s : RWSState) (data : TransportMsg) :
    Except String (RWSState × List Output) :=
  let processData := s.receivedHeader.isSome
  let hdr := s.receivedHeader.getD data
  let s := { s with receivedHeader := some hdr }
  match hdr with
  | .txt _ => .error "TypeError: header is not an ArrayBuffer"
  | .bin hb =>
    let typeId := readU32 hb 0
    if typeId = MSG_INITIAL_SERIAL then
      .ok ({ s with receiveSerial := readU32 hb 4, receivedHeader := none }, [])
    else if typeId = MSG_DATA_ACK then
      let sendUntil := readU32 hb 4
      .ok ({ s with
              pendingAckMessages :=
                jsSlice s.pendingAckMessages ((sendUntil : Int) - (s.bufferLowestSerial : Int)),
              bufferLowestSerial := sendUntil,
              receivedHeader := none }, [])
    else if typeId = MSG_CLOSE_ACK then
      let s := { s with receiveSerial := s.receiveSerial + 1, closeAcknowledged := some true }
      match s.pendingCloseEvent with
      | some e =>
        match closeInternal s e with
        | .error msg => .error msg
        | .ok (s, outs) =>
          let outs := if s.wsPresent then outs ++ [Output.wsClose e.code e.reason] else outs
          .ok ({ s with receivedHeader := none }, outs)
      | none => .error "BUG. Received a CLOSE_ACK without a pending close event."
    else if typeId = MSG_CLOSE then
      let s := { s with receiveSerial := s.receiveSerial + 1,
                        pendingAckMessages := s.pendingAckMessages ++ [closeAckMsg] }
      let outs : List Output :=
        if s.wsPresent = true ∧ s.wsReadyState = .OPEN then [.wsSend closeAckMsg] else []
      .ok ({ s with readyState := .CLOSING, closedTimeoutTask := none,
                    receivedHeader := none }, outs)
    else if typeId = MSG_DATA then
      let s := { s with receiveSerial := s.receiveSerial + 1 }
      if processData then
        let deliver := s.receiveSerial > s.processedSerial
        let douts : List Output :=
          if deliver ∧ s.readyState = .OPEN then [.appMessage data] else []
        let s := if deliver then { s with processedSerial := s.receiveSerial } else s
        let s := { s with
                    unacknowledgedSize := s.unacknowledgedSize + data.size,
                    unacknowledgedMessages := s.unacknowledgedMessages + 1 }
        let s := ensureUnacknowledgedTimeout s
        let (s, aouts) :=
          if s.unacknowledgedSize > cfg.maxUnacknowledgedBufferSizeBytes ∨
             s.unacknowledgedMessages > cfg.maxUnacknowledgedMessages then sendAck s
          else (s, [])
        .ok ({ s with receivedHeader := none }, douts ++ aouts)
      else .ok (s, [])
    else
      .ok (s, [])

/-- Method `handleInternalWebSocketClose(event)`: while CONNECTING/OPEN or with an
unacknowledged local close, (optionally schedule a reconnect, a pure timer
side effect) and arm the close timer; in CLOSING finish closing. -/
def handleInternalWebSocketClose (s : RWSState) (e : CloseEvt) :
    Except String (RWSState × List Output) :=
  if s.readyState = .CONNECTING ∨ s.readyState = .OPEN ∨ s.closeAcknowledged = some false then
    .ok (ensureClosedTimeoutTask s e, [])
  else if s.readyState = .CLOSING then closeInternal s e
  else .ok (s, [])

/-- Method `handleInternalWebSocketError(event)`. -/
def handleInternalWebSocketError (s : RWSState) : RWSState × List Output :=
  ({ s with pendingErrorEvent := true }, [])

/-- Method `useWebSocket(webSocket)`: install the socket; synthesize an open event
when the engine is CONNECTING/OPEN and the socket is already OPEN; throw on
an already closed or closing socket. -/
def useWebSocket (s : RWSState) (newWsReadyState : ReadyState) :
    Except String (RWSState × List Output) :=
  let s := { s with wsPresent := true, wsReadyState := newWsReadyState }
  if (s.readyState = .CONNECTING ∨ s.readyState = .OPEN) ∧ newWsReadyState = .OPEN then
    handleInternalWebSocketOpen s
  else if newWsReadyState = .CLOSED ∨ newWsReadyState = .CLOSING then
    .error "WebSocket already closed or closing."
  else .ok (s, [])

/-- The close-timer callback: disarm, force CLOSING, then `closeInternal`
with the stored event.  A timer that is not armed does nothing. -/
def closedTimeoutFire (s : RWSState) : Except String (RWSState × List Output) :=
  match s.closedTimeoutTask with
  | none => .ok (s, [])
  | some e => closeInternal { s with closedTimeoutTask := none, readyState := .CLOSING } e

/-- The unacknowledged-timer callback: disarm then `sendAck`. -/
def unacknowledgedTimeoutFire (s : RWSState) : RWSState × List Output :=
  if s.unacknowledgedTimeoutArmed then
    sendAck { s with unacknowledgedTimeoutArmed := false }
  else (s, [])

/-- One event of the engine's single-threaded event stream.  `wsOpen` /
`wsClosed` update the underlying socket's ready state before running the
bound handler, as the real socket does. -/
inductive Event where
  | wsOpen
  | wsMessage (data : TransportMsg)
  | wsError
  | wsClosed (e : CloseEvt)
  | appSend (body : TransportMsg)
  | appCloseCall (code : Nat) (reason : String)
  | useWs (wsState : ReadyState)
  | closeTimerFire
  | unackTimerFire
deriving DecidableEq, Repr

/-- One step of the engine: dispatch an event to the method bound to it. -/
def step (cfg : Config) (s : RWSState) : Event → Except String (RWSState × List Output)
  | .wsOpen => handleInternalWebSocketOpen { s with wsReadyState := .OPEN }
  | .wsMessage d => handleInternalWebSocketMessage cfg s d
  | .wsError => .ok (handleInternalWebSocketError s)
  | .wsClosed e => handleInternalWebSocketClose { s with wsReadyState := .CLOSED } e
  | .appSend b => .ok (send s b)
  | .appCloseCall c r => .ok (close s c r)
  | .useWs w => useWebSocket s w
  | .closeTimerFire => closedTimeoutFire s
  | .unackTimerFire => .ok (unacknowledgedTimeoutFire s)

/-- Run a list of events, accumulating the outputs; stops at the first
thrown error. -/
def run (cfg : Config) (s : RWSState) : List Event → Except String (RWSState × List Output)
  | [] => .ok (s, [])
  | e :: rest =>
    match step cfg s e with
    | .error m => .error m
    | .ok (s', outs) =>
      match run cfg s' rest with
      | .error m => .error m
      | .ok (s'', outs') => .ok (s'', outs ++ outs')

/-- The frames sent on the underlying websocket, in order. -/
def sentFrames (outs : List Output) : List TransportMsg :=
  outs.filterMap fun o => match o with | .wsSend m => some m | _ => none

/-- The message bodies delivered to the application, in order. -/
def appMessages (outs : List Output) : List TransportMsg :=
  outs.filterMap fun o => match o with | .appMessage b => some b | _ => none

/-- Whether an output is an application open dispatch. -/
def isOpenOut : Output → Bool
  | .appOpen => true
  | _ => false

/-- Number of open-event dispatch occasions in an output list. -/
def openCount (outs : List Output) : Nat := (outs.filter isOpenOut).length

/-- Number of close-event dispatch occasions in an output list. -/
def appCloseCount (outs : List Output) : Nat :=
  (outs.filter fun o => match o with | .appClose _ => true | _ => false).length

/-- Final state of an engine result, when no error was thrown. -/
def finalState : Except String (RWSState × List Output) → Option RWSState
  | .ok (s, _) => some s
  | .error _ => none

/-- Outputs of an engine result, when no error was thrown. -/
def resultOutputs : Except String (RWSState × List Output) → Option (List Output)
  | .ok (_, outs) => some outs
  | .error _ => none

/-- The event sequence a peer emits to transmit `bodies` as completed DATA
frames: a `DATA` header message followed by the body, for each body. -/
def dataFrameEvents (bodies : List TransportMsg) : List Event :=
  bodies.flatMap fun b => [Event.wsMessage dataHeaderMsg, Event.wsMessage b]

end Retransmit

namespace Retransmit

/-! ### Codec lemmas -/

theorem readU32_u32le_tag (t n : Nat) (ht : t < 256) :
    readU32 (u32le t ++ u32le n) 0 = t := by
  simp only [u32le, readU32, List.cons_append, List.nil_append,
    List.getD_cons_zero, List.getD_cons_succ]
  omega

theorem readU32_u32le_arg (t n : Nat) :
    readU32 (u32le t ++ u32le n) 4 = n % 4294967296 := by
  simp only [u32le, readU32, List.cons_append, List.nil_append,
    List.getD_cons_zero, List.getD_cons_succ]
  omega

theorem ensureUnacknowledgedTimeout_eq (s : RWSState) :
    ensureUnacknowledgedTimeout s = { s with unacknowledgedTimeoutArmed := true } := by
  unfold ensureUnacknowledgedTimeout
  split
  · next h => cases s; simp_all
  · rfl

/-! ### Handler computation lemmas -/

/-- Receiving a `DATA` header with no header pending: the serial counter is
already incremented on the header message and the header stays recorded. -/
theorem handleMessage_dataHeader (cfg : Config) (s : RWSState)
    (hh : s.receivedHeader = none) :
    handleInternalWebSocketMessage cfg s dataHeaderMsg =
      .ok ({ s with receivedHeader := some dataHeaderMsg,
                    receiveSerial := s.receiveSerial + 1 }, []) := by
  unfold handleInternalWebSocketMessage
  simp [hh, dataHeaderMsg, u32le, readU32, MSG_INITIAL_SERIAL, MSG_DATA_ACK,
    MSG_CLOSE_ACK, MSG_CLOSE, MSG_DATA]

/-- Receiving `INITIAL_SERIAL(n)` with no header pending resets the receive
serial (to `n` truncated to 32 bits by the sender's `Uint32Array`). -/
theorem handleMessage_initialSerial (cfg : Config) (s : RWSState) (n : Nat)
    (hh : s.receivedHeader = none) :
    handleInternalWebSocketMessage cfg s (initialSerialMsg n) =
      .ok ({ s with receiveSerial := n % 4294967296 }, []) := by
  obtain ⟨f1, f2, f3, f4, f5, f6, f7, f8, f9, f10, f11, f12, f13, f14, f15⟩ := s
  simp only at hh
  subst hh
  unfold handleInternalWebSocketMessage initialSerialMsg
  simp [readU32_u32le_tag, readU32_u32le_arg, MSG_INITIAL_SERIAL]

/-- The explicit result of processing the body of a pending `DATA` header. -/
def dataBodyResult (cfg : Config) (s : RWSState) (body : TransportMsg) :
    RWSState × List Output :=
  let s1 : RWSState := { s with receiveSerial := s.receiveSerial + 1 }
  let douts : List Output :=
    if s1.receiveSerial > s1.processedSerial ∧ s1.readyState = .OPEN then
      [.appMessage body]
    else []
  let s2 : RWSState :=
    if s1.receiveSerial > s1.processedSerial then
      { s1 with processedSerial := s1.receiveSerial }
    else s1
  let s3 : RWSState :=
    { s2 with unacknowledgedSize := s2.unacknowledgedSize + body.size,
              unacknowledgedMessages := s2.unacknowledgedMessages + 1,
              unacknowledgedTimeoutArmed := true }
  let pair :=
    if s3.unacknowledgedSize > cfg.maxUnacknowledgedBufferSizeBytes ∨
       s3.unacknowledgedMessages > cfg.maxUnacknowledgedMessages then sendAck s3
    else (s3, [])
  ({ pair.1 with receivedHeader := none }, douts ++ pair.2)

/-- Receiving any message while a `DATA` header is pending processes it as
the frame body. -/
theorem handleMessage_dataBody (cfg : Config) (s : RWSState) (body : TransportMsg)
    (hh : s.receivedHeader = some dataHeaderMsg) :
    handleInternalWebSocketMessage cfg s body = .ok (dataBodyResult cfg s body) := by
  obtain ⟨f1, f2, f3, f4, f5, f6, f7, f8, f9, f10, f11, f12, f13, f14, f15⟩ := s
  simp only at hh
  subst hh
  unfold handleInternalWebSocketMessage dataBodyResult
  simp only [dataHeaderMsg, u32le] at *
  simp [readU32, MSG_INITIAL_SERIAL, MSG_DATA_ACK, MSG_CLOSE_ACK, MSG_CLOSE, MSG_DATA,
    ensureUnacknowledgedTimeout_eq]

end Retransmit

namespace Retransmit

/-- An engine whose transport is attached and OPEN and which has reached
the OPEN application state; used as the concrete base state of witnesses
and counterexamples. -/
def openEngineState : RWSState :=
  { initialState with wsPresent := true, wsReadyState := .OPEN, readyState := .OPEN }

/-! ### C3 -/

/-- C3: on receipt of `DATA_ACK(cumulative)` with
`cumulative ≥ buffer_lowest_serial`, processing removes exactly the
elements at positions `[0, cumulative − buffer_lowest_serial)` from
`pending_ack` (a `drop`, so the remaining elements keep their order), sets
`buffer_lowest_serial := cumulative`, and leaves all other state
unchanged. -/
theorem c3_data_ack_drops_prefix (cfg : Config) (s : RWSState) (c : Nat)
    (hh : s.receivedHeader = none) (hge : s.bufferLowestSerial ≤ c)
    (hlt : c < 4294967296) :
    handleInternalWebSocketMessage cfg s (dataAckMsg c) =
      .ok ({ s with
              pendingAckMessages := s.pendingAckMessages.drop (c - s.bufferLowestSerial),
              bufferLowestSerial := c }, []) := by
  obtain ⟨f1, f2, f3, f4, f5, f6, f7, f8, f9, f10, f11, f12, f13, f14, f15⟩ := s
  simp only at hh hge
  subst hh
  unfold handleInternalWebSocketMessage
  simp only [Option.isSome_none, Option.getD_none, dataAckMsg]
  simp only [readU32_u32le_tag 3 c (by norm_num), readU32_u32le_arg,
    MSG_INITIAL_SERIAL, MSG_DATA_ACK]
  norm_num [Nat.mod_eq_of_lt hlt, jsSlice]
  intro hcontra
  omega

/-- C3 witness: acknowledging 2 of 3 buffered frames drops the first two. -/
theorem c3_witness :
    handleInternalWebSocketMessage defaultConfig
        { openEngineState with
            pendingAckMessages := [dataHeaderMsg, .bin [7], dataHeaderMsg] } (dataAckMsg 2) =
      .ok ({ { openEngineState with
                pendingAckMessages := [dataHeaderMsg, .bin [7], dataHeaderMsg] } with
              pendingAckMessages :=
                List.drop (2 - openEngineState.bufferLowestSerial)
                  [dataHeaderMsg, TransportMsg.bin [7], dataHeaderMsg],
              bufferLowestSerial := 2 }, []) :=
  c3_data_ack_drops_prefix defaultConfig
    { openEngineState with pendingAckMessages := [dataHeaderMsg, .bin [7], dataHeaderMsg] }
    2 rfl (by decide) (by decide)

end Retransmit

namespace Retransmit

/-! ### C9 -/

/-- C9 counterexample: the constructor defaults are not
`close_timeout_ms = 60000` and `reconnect_interval_ms = 250`. -/
theorem c9_defaults_counterexample :
    ¬(defaultConfig.closeTimeoutMs = 60000 ∧ defaultConfig.reconnectIntervalMs = 250) := by
  decide

/-- C9 (amended): when constructed without overriding configuration, the
engine's `close_timeout_ms` default is 1 500 000 milliseconds and its
`reconnect_interval_ms` default is 3000 milliseconds. -/
theorem c9_defaults_amended :
    defaultConfig.closeTimeoutMs = 1500000 ∧ defaultConfig.reconnectIntervalMs = 3000 := by
  decide

/-! ### C4 -/

/-- A concrete engine that is CLOSING after a local `close()` (pending
close recorded, CLOSE frame already buffered, awaiting CLOSE_ACK). -/
def closingEngineState : RWSState :=
  { openEngineState with
      readyState := .CLOSING
      pendingAckMessages := [closeMsg]
      pendingCloseEvent := some { code := 1234, reason := "first", wasClean := true }
      closeAcknowledged := some false }

/-- C4: the source's guard reads `CLOSED || CLOSED` (instead of
`CLOSED || CLOSING` as its own warning message states), so `close()` while
CLOSING is *not* a no-op: it appends and sends another CLOSE frame and
overwrites `pending_close`, while `close()` while CLOSED is a no-op. -/
theorem c4_close_while_closing_is_not_noop :
    (close closingEngineState 1000 "").1.pendingAckMessages =
        closingEngineState.pendingAckMessages ++ [closeMsg] ∧
    (close closingEngineState 1000 "").2 = [Output.wsSend closeMsg] ∧
    (close closingEngineState 1000 "").1.pendingCloseEvent =
        some { code := 1000, reason := "", wasClean := true } ∧
    (close { closingEngineState with readyState := .CLOSED } 1000 "").1 =
        { closingEngineState with readyState := .CLOSED } ∧
    (close { closingEngineState with readyState := .CLOSED } 1000 "").2 =
        [Output.warnAlreadyClosed] := by
  decide

/-! ### C8 -/

/-- A 4-byte header whose 32-bit type tag (99) is none of the five defined
tags. -/
def unknownHeaderMsg : TransportMsg := .bin [99, 0, 0, 0]

/-- An engine holding three unacknowledged frames with
`buffer_lowest_serial = 4`. -/
def ackDesyncState : RWSState :=
  { openEngineState with
      bufferLowestSerial := 4
      pendingAckMessages := [dataHeaderMsg, .bin [7], dataHeaderMsg] }

/-- C8: neither desync case fails.  An undefined frame tag is silently
ignored (the handler returns normally, leaving the unknown header
pending), and a `DATA_ACK` whose cumulative (2) is below
`buffer_lowest_serial` (4) is processed without error: the negative
JavaScript slice index keeps the *last* two buffered frames and
`buffer_lowest_serial` moves backwards to 2. -/
theorem c8_desync_is_silent :
    handleInternalWebSocketMessage defaultConfig openEngineState unknownHeaderMsg =
        .ok ({ openEngineState with receivedHeader := some unknownHeaderMsg }, []) ∧
    handleInternalWebSocketMessage defaultConfig ackDesyncState (dataAckMsg 2) =
        .ok ({ ackDesyncState with
                pendingAckMessages := [.bin [7], dataHeaderMsg],
                bufferLowestSerial := 2 }, []) := by
  constructor
  · rfl
  · rfl

/-! ### C5 -/

/-- C5 counterexample: from a fresh OPEN engine (`receive_serial = 0`),
processing one completed DATA frame (header message, then body message)
leaves `receive_serial = 2`, not `0 + 1`: the source increments the
counter once per transport message, on the header *and* on the body. -/
theorem c5_counterexample :
    (finalState (run defaultConfig openEngineState
          [Event.wsMessage dataHeaderMsg, Event.wsMessage (.bin [5])])).map
        RWSState.receiveSerial = some 2 ∧
      openEngineState.receiveSerial = 0 ∧ (2 : Nat) ≠ 0 + 1 := by
  constructor
  · rfl
  · constructor
    · rfl
    · decide

/-- C5 (amended): processing one completed DATA frame (its header
transport message plus its body transport message) increments
`receive_serial` by exactly 2 in total — once for each of the two
transport messages. -/
theorem c5_data_frame_increments_by_two (cfg : Config) (s : RWSState)
    (body : TransportMsg) (hh : s.receivedHeader = none) :
    ∃ s' outs,
      run cfg s [Event.wsMessage dataHeaderMsg, Event.wsMessage body] = .ok (s', outs) ∧
      s'.receiveSerial = s.receiveSerial + 2 := by
  have h1 := handleMessage_dataHeader cfg s hh
  set s1 : RWSState :=
    { s with receivedHeader := some dataHeaderMsg,
             receiveSerial := s.receiveSerial + 1 } with hs1
  have h2 := handleMessage_dataBody cfg s1 body (by rw [hs1])
  refine ⟨(dataBodyResult cfg s1 body).1, (dataBodyResult cfg s1 body).2, ?_, ?_⟩
  · simp [run, step, h1, h2]
  · unfold dataBodyResult
    simp only [hs1]
    split
    · split <;> simp [sendAck]
      · split <;> rfl
    · split <;> simp [sendAck]
      · split <;> rfl

end Retransmit

namespace Retransmit

/-! ### C6 -/

/-- C6 counterexample: an OPEN engine that receives a CLOSE frame moves to
CLOSING — not CLOSED — and fires no application close event in that
step. -/
theorem c6_counterexample :
    (finalState (handleInternalWebSocketMessage defaultConfig openEngineState closeMsg)).map
        RWSState.readyState = some .CLOSING ∧
      ReadyState.CLOSING ≠ ReadyState.CLOSED ∧
      (resultOutputs
            (handleInternalWebSocketMessage defaultConfig openEngineState closeMsg)).map
          appCloseCount = some 0 := by
  refine ⟨rfl, by decide, rfl⟩

/-- C6 (amended): when the engine, in state OPEN with an OPEN transport,
receives a CLOSE frame (`[04 00 00 00]`), it enqueues and sends a
CLOSE_ACK frame (`[05 00 00 00]`), increments `receive_serial`, cancels
the close timer and transitions to CLOSING; no application close event is
dispatched in this step. -/
theorem c6_close_frame_transitions_to_closing (cfg : Config) (s : RWSState)
    (hh : s.receivedHeader = none) (hrs : s.readyState = .OPEN)
    (hp : s.wsPresent = true) (hw : s.wsReadyState = .OPEN) :
    handleInternalWebSocketMessage cfg s closeMsg =
      .ok ({ s with receiveSerial := s.receiveSerial + 1,
                    pendingAckMessages := s.pendingAckMessages ++ [closeAckMsg],
                    readyState := .CLOSING, closedTimeoutTask := none },
           [Output.wsSend closeAckMsg]) := by
  obtain ⟨f1, f2, f3, f4, f5, f6, f7, f8, f9, f10, f11, f12, f13, f14, f15⟩ := s
  simp only at hh hrs hp hw
  subst hh hrs hp hw
  unfold handleInternalWebSocketMessage
  simp [closeMsg, u32le, readU32, MSG_INITIAL_SERIAL, MSG_DATA_ACK, MSG_CLOSE_ACK,
    MSG_CLOSE, MSG_DATA]

/-- C6 witness: the amended claim evaluated on a concrete OPEN engine. -/
theorem c6_witness :
    handleInternalWebSocketMessage defaultConfig openEngineState closeMsg =
      .ok ({ openEngineState with
              receiveSerial := openEngineState.receiveSerial + 1,
              pendingAckMessages := openEngineState.pendingAckMessages ++ [closeAckMsg],
              readyState := .CLOSING, closedTimeoutTask := none },
           [Output.wsSend closeAckMsg]) :=
  c6_close_frame_transitions_to_closing defaultConfig openEngineState rfl rfl rfl rfl

/-! ### C2 -/

theorem sentFrames_map_wsSend (l : List TransportMsg) :
    sentFrames (l.map Output.wsSend) = l := by
  induction l with
  | nil => rfl
  | cons a t ih => simpa [sentFrames, List.filterMap_cons] using ih

theorem sentFrames_append (l1 l2 : List Output) :
    sentFrames (l1 ++ l2) = sentFrames l1 ++ sentFrames l2 := by
  simp [sentFrames, List.filterMap_append]

theorem sentFrames_wsSend_cons (m : TransportMsg) (l : List Output) :
    sentFrames (Output.wsSend m :: l) = m :: sentFrames l := by
  simp [sentFrames, List.filterMap_cons]

theorem sentFrames_appOpen : sentFrames [Output.appOpen] = [] := rfl

/-- C2: whenever the open handler runs — the transport fired OPEN on a
first connection or a reconnection, or `useWebSocket` installed an
already-open transport and synthesized the open event — with the
underlying socket OPEN, the frames it sends are exactly the 8-byte
little-endian `INITIAL_SERIAL(buffer_lowest_serial)` followed by every
frame of `pending_ack`, in order. -/
theorem c2_open_replays_initial_serial_then_pending (s s' : RWSState)
    (outs : List Output) (h : handleInternalWebSocketOpen s = .ok (s', outs))
    (hw : s.wsReadyState = .OPEN) :
    sentFrames outs = initialSerialMsg s.bufferLowestSerial :: s.pendingAckMessages := by
  obtain ⟨f1, f2, f3, f4, f5, f6, f7, f8, f9, f10, f11, f12, f13, f14, f15⟩ := s
  simp only at hw
  subst hw
  unfold handleInternalWebSocketOpen at h
  cases f9 with
  | false => simp at h
  | true =>
    simp only [cancelClosedTimeoutTask] at h
    split at h
    · exact Except.noConfusion h
    · split at h <;> split at h <;>
        (simp only [Except.ok.injEq, Prod.mk.injEq] at h
         obtain ⟨hs', houts⟩ := h
         subst houts
         simp [sentFrames_wsSend_cons, sentFrames_append, sentFrames_map_wsSend,
           sentFrames_appOpen])

end Retransmit

namespace Retransmit

/-- An OPEN engine with two frames (one DATA header + body) buffered. -/
def bufferedEngineState : RWSState :=
  { openEngineState with pendingAckMessages := [dataHeaderMsg, .bin [5]] }

/-- C2 witness: replay on a concrete engine holding one buffered DATA
frame. -/
theorem c2_witness :
    sentFrames [Output.wsSend (initialSerialMsg 0), Output.wsSend dataHeaderMsg,
        Output.wsSend (TransportMsg.bin [5])] =
      initialSerialMsg bufferedEngineState.bufferLowestSerial ::
        bufferedEngineState.pendingAckMessages :=
  c2_open_replays_initial_serial_then_pending bufferedEngineState bufferedEngineState
    [Output.wsSend (initialSerialMsg 0), Output.wsSend dataHeaderMsg,
      Output.wsSend (TransportMsg.bin [5])] rfl rfl

/-! ### Output-filter helper lemmas -/

theorem sentFrames_appMessage_cons (b : TransportMsg) (l : List Output) :
    sentFrames (Output.appMessage b :: l) = sentFrames l := by
  simp [sentFrames, List.filterMap_cons]

theorem appMessages_append (l1 l2 : List Output) :
    appMessages (l1 ++ l2) = appMessages l1 ++ appMessages l2 := by
  simp [appMessages, List.filterMap_append]

theorem appMessages_appMessage_cons (b : TransportMsg) (l : List Output) :
    appMessages (Output.appMessage b :: l) = b :: appMessages l := by
  simp [appMessages, List.filterMap_cons]

theorem appMessages_wsSend_cons (m : TransportMsg) (l : List Output) :
    appMessages (Output.wsSend m :: l) = appMessages l := by
  simp [appMessages, List.filterMap_cons]

theorem appMessages_sendAck (s : RWSState) : appMessages (sendAck s).2 = [] := by
  unfold sendAck
  split <;> rfl

theorem sendAck_receiveSerial (s : RWSState) :
    (sendAck s).1.receiveSerial = s.receiveSerial := by
  unfold sendAck
  split <;> rfl

theorem sendAck_processedSerial (s : RWSState) :
    (sendAck s).1.processedSerial = s.processedSerial := by
  unfold sendAck
  split <;> rfl

/-! ### Properties of the DATA-body step -/

/-- Delivery behaviour of a completed DATA body: the body is handed to the
application exactly when the incremented `receive_serial` exceeds
`processed_serial` and the engine is OPEN, and in the former case
`processed_serial` is advanced to the incremented `receive_serial`. -/
theorem dataBody_spec (cfg : Config) (s : RWSState) (body : TransportMsg) :
    appMessages (dataBodyResult cfg s body).2 =
      (if s.receiveSerial + 1 > s.processedSerial ∧ s.readyState = .OPEN then [body]
       else []) ∧
    (dataBodyResult cfg s body).1.receiveSerial = s.receiveSerial + 1 ∧
    (s.receiveSerial + 1 > s.processedSerial →
      (dataBodyResult cfg s body).1.processedSerial = s.receiveSerial + 1) ∧
    (¬(s.receiveSerial + 1 > s.processedSerial) →
      (dataBodyResult cfg s body).1.processedSerial = s.processedSerial) := by
  simp only [dataBodyResult, sendAck]
  split_ifs <;>
    simp_all [appMessages_append, appMessages_appMessage_cons, appMessages]

end Retransmit

namespace Retransmit

theorem dataBody_receivedHeader (cfg : Config) (s : RWSState) (body : TransportMsg) :
    (dataBodyResult cfg s body).1.receivedHeader = none := by
  simp [dataBodyResult]

/-- ACK behaviour of a completed DATA body on an OPEN socket: exactly one
`DATA_ACK` is sent iff one of the two strict thresholds is exceeded, and
sending it resets both accumulators and cancels the unacknowledged timer;
otherwise the accumulators grow and the timer is left armed. -/
theorem dataBody_ack_spec (cfg : Config) (s : RWSState) (body : TransportMsg)
    (hp : s.wsPresent = true) (hw : s.wsReadyState = .OPEN) :
    (sentFrames (dataBodyResult cfg s body).2 =
      (if s.unacknowledgedSize + body.size > cfg.maxUnacknowledgedBufferSizeBytes ∨
          s.unacknowledgedMessages + 1 > cfg.maxUnacknowledgedMessages then
        [dataAckMsg (dataBodyResult cfg s body).1.processedSerial]
      else [])) ∧
    (s.unacknowledgedSize + body.size > cfg.maxUnacknowledgedBufferSizeBytes ∨
        s.unacknowledgedMessages + 1 > cfg.maxUnacknowledgedMessages →
      (dataBodyResult cfg s body).1.unacknowledgedSize = 0 ∧
      (dataBodyResult cfg s body).1.unacknowledgedMessages = 0 ∧
      (dataBodyResult cfg s body).1.unacknowledgedTimeoutArmed = false) ∧
    (¬(s.unacknowledgedSize + body.size > cfg.maxUnacknowledgedBufferSizeBytes ∨
        s.unacknowledgedMessages + 1 > cfg.maxUnacknowledgedMessages) →
      (dataBodyResult cfg s body).1.unacknowledgedSize = s.unacknowledgedSize + body.size ∧
      (dataBodyResult cfg s body).1.unacknowledgedMessages = s.unacknowledgedMessages + 1 ∧
      (dataBodyResult cfg s body).1.unacknowledgedTimeoutArmed = true) := by
  simp only [dataBodyResult, sendAck]
  split_ifs <;>
    simp_all [sentFrames_append, sentFrames_wsSend_cons, sentFrames_appMessage_cons,
      sentFrames]

/-- C7: after processing a completed inbound DATA frame while the transport
is OPEN, exactly one `DATA_ACK(processed_serial)` is sent iff
`unack_bytes > max_unack_bytes` or `unack_count > max_unack_messages`
(both strict, the accumulators having been bumped by this frame and the
unack-timer armed first); sending it resets both accumulators to zero and
cancels the unack-timer, and otherwise the timer stays armed with the
accumulators grown. -/
theorem c7_ack_threshold (cfg : Config) (s : RWSState) (body : TransportMsg)
    (hh : s.receivedHeader = some dataHeaderMsg) (hp : s.wsPresent = true)
    (hw : s.wsReadyState = .OPEN) :
    ∃ s' outs,
      handleInternalWebSocketMessage cfg s body = .ok (s', outs) ∧
      (sentFrames outs =
        (if s.unacknowledgedSize + body.size > cfg.maxUnacknowledgedBufferSizeBytes ∨
            s.unacknowledgedMessages + 1 > cfg.maxUnacknowledgedMessages then
          [dataAckMsg s'.processedSerial]
        else [])) ∧
      (s.unacknowledgedSize + body.size > cfg.maxUnacknowledgedBufferSizeBytes ∨
          s.unacknowledgedMessages + 1 > cfg.maxUnacknowledgedMessages →
        s'.unacknowledgedSize = 0 ∧ s'.unacknowledgedMessages = 0 ∧
        s'.unacknowledgedTimeoutArmed = false) ∧
      (¬(s.unacknowledgedSize + body.size > cfg.maxUnacknowledgedBufferSizeBytes ∨
          s.unacknowledgedMessages + 1 > cfg.maxUnacknowledgedMessages) →
        s'.unacknowledgedSize = s.unacknowledgedSize + body.size ∧
        s'.unacknowledgedMessages = s.unacknowledgedMessages + 1 ∧
        s'.unacknowledgedTimeoutArmed = true) := by
  obtain ⟨hs, ha, hn⟩ := dataBody_ack_spec cfg s body hp hw
  exact ⟨(dataBodyResult cfg s body).1, (dataBodyResult cfg s body).2,
    handleMessage_dataBody cfg s body hh, hs, ha, hn⟩

end Retransmit

namespace Retransmit

/-- A configuration whose message-count ACK threshold is zero, so any
single inbound DATA frame crosses it. -/
def c7Cfg : Config := { defaultConfig with maxUnacknowledgedMessages := 0 }

/-- An OPEN engine that has just received a DATA header (serial already
bumped once) and awaits the body. -/
def pendingHeaderState : RWSState :=
  { openEngineState with receivedHeader := some dataHeaderMsg, receiveSerial := 1 }

/-- C7 witness: with a zero message threshold, one completed DATA frame
triggers exactly one `DATA_ACK`. -/
theorem c7_witness :
    ∃ s' outs,
      handleInternalWebSocketMessage c7Cfg pendingHeaderState (TransportMsg.bin [5]) =
        .ok (s', outs) ∧
      (sentFrames outs =
        (if pendingHeaderState.unacknowledgedSize + (TransportMsg.bin [5]).size >
              c7Cfg.maxUnacknowledgedBufferSizeBytes ∨
            pendingHeaderState.unacknowledgedMessages + 1 > c7Cfg.maxUnacknowledgedMessages then
          [dataAckMsg s'.processedSerial]
        else [])) ∧
      (pendingHeaderState.unacknowledgedSize + (TransportMsg.bin [5]).size >
          c7Cfg.maxUnacknowledgedBufferSizeBytes ∨
          pendingHeaderState.unacknowledgedMessages + 1 > c7Cfg.maxUnacknowledgedMessages →
        s'.unacknowledgedSize = 0 ∧ s'.unacknowledgedMessages = 0 ∧
        s'.unacknowledgedTimeoutArmed = false) ∧
      (¬(pendingHeaderState.unacknowledgedSize + (TransportMsg.bin [5]).size >
          c7Cfg.maxUnacknowledgedBufferSizeBytes ∨
          pendingHeaderState.unacknowledgedMessages + 1 > c7Cfg.maxUnacknowledgedMessages) →
        s'.unacknowledgedSize =
            pendingHeaderState.unacknowledgedSize + (TransportMsg.bin [5]).size ∧
        s'.unacknowledgedMessages = pendingHeaderState.unacknowledgedMessages + 1 ∧
        s'.unacknowledgedTimeoutArmed = true) :=
  c7_ack_threshold c7Cfg pendingHeaderState (TransportMsg.bin [5]) rfl rfl rfl

theorem run_cons_ok {cfg : Config} {s s1 s2 : RWSState} {e : Event}
    {outs1 outs2 : List Output} {evs : List Event}
    (h1 : step cfg s e = .ok (s1, outs1)) (h2 : run cfg s1 evs = .ok (s2, outs2)) :
    run cfg s (e :: evs) = .ok (s2, outs1 ++ outs2) := by
  simp [run, h1, h2]

/-- Replaying DATA frames whose serial range stays at or below
`processed_serial` produces no application message callbacks and leaves
`processed_serial` unchanged. -/
theorem run_dataFrames_no_redelivery (cfg : Config) :
    ∀ (bodies : List TransportMsg) (s : RWSState),
      s.receivedHeader = none →
      s.receiveSerial + 2 * bodies.length ≤ s.processedSerial →
      ∃ s' outs,
        run cfg s (dataFrameEvents bodies) = .ok (s', outs) ∧
        appMessages outs = [] ∧ s'.receivedHeader = none ∧
        s'.receiveSerial = s.receiveSerial + 2 * bodies.length ∧
        s'.processedSerial = s.processedSerial := by
  intro bodies
  induction bodies with
  | nil =>
    intro s hh hle
    exact ⟨s, [], rfl, rfl, hh, by simp [dataFrameEvents], rfl⟩
  | cons b rest ih =>
    intro s hh hle
    have h1 := handleMessage_dataHeader cfg s hh
    set s1 : RWSState :=
      { s with receivedHeader := some dataHeaderMsg,
               receiveSerial := s.receiveSerial + 1 } with hs1
    have h2 := handleMessage_dataBody cfg s1 b (by rw [hs1])
    obtain ⟨hm, hrs, _, hps⟩ := dataBody_spec cfg s1 b
    have hs1rs : s1.receiveSerial = s.receiveSerial + 1 := by rw [hs1]
    have hs1ps : s1.processedSerial = s.processedSerial := by rw [hs1]
    have hnd : ¬(s1.receiveSerial + 1 > s1.processedSerial) := by
      rw [hs1rs, hs1ps]
      simp at hle
      omega
    have hm0 : appMessages (dataBodyResult cfg s1 b).2 = [] := by
      rw [hm, if_neg]
      exact fun hc => hnd hc.1
    have hps0 := hps hnd
    obtain ⟨s', outs, hrun, hm2, hh2, hrs2, hps2⟩ :=
      ih (dataBodyResult cfg s1 b).1 (dataBody_receivedHeader cfg s1 b)
        (by
          rw [hrs, hps0, hs1rs, hs1ps]
          simp at hle
          omega)
    refine ⟨s', [] ++ ((dataBodyResult cfg s1 b).2 ++ outs), ?_, ?_, hh2, ?_, ?_⟩
    · have hstep2 : step cfg s1 (Event.wsMessage b) =
          .ok ((dataBodyResult cfg s1 b).1, (dataBodyResult cfg s1 b).2) := h2
      have hfe : dataFrameEvents (b :: rest) =
          Event.wsMessage dataHeaderMsg :: Event.wsMessage b :: dataFrameEvents rest := by
        simp [dataFrameEvents]
      rw [hfe]
      exact run_cons_ok h1 (run_cons_ok hstep2 hrun)
    · simp [appMessages_append, hm0, hm2]
    · rw [hrs2, hrs, hs1rs]
      simp
      omega
    · rw [hps2, hps0, hs1ps]

end Retransmit

namespace Retransmit

/-- C1: for every completed inbound DATA frame (header message then body
message), the body is delivered to the application iff, after the serial
bump, `receive_serial > processed_serial` and `ready_state = OPEN`, and a
delivery sets `processed_serial := receive_serial`; consequently, after an
`INITIAL_SERIAL(n)` realignment, replaying DATA frames that were already
delivered (their serial range ending at or below `processed_serial`)
produces no additional application message callbacks. -/
theorem c1_delivery_iff_and_replay_idempotent (cfg : Config) (s : RWSState)
    (body : TransportMsg) (n : Nat) (bodies : List TransportMsg)
    (hh : s.receivedHeader = none) :
    (∃ s' outs,
        run cfg s [Event.wsMessage dataHeaderMsg, Event.wsMessage body] = .ok (s', outs) ∧
        appMessages outs =
          (if s.receiveSerial + 2 > s.processedSerial ∧ s.readyState = .OPEN then [body]
           else []) ∧
        (s.receiveSerial + 2 > s.processedSerial ∧ s.readyState = .OPEN →
          s'.processedSerial = s'.receiveSerial)) ∧
    (n + 2 * bodies.length ≤ s.processedSerial →
      ∃ s' outs,
        run cfg s (Event.wsMessage (initialSerialMsg n) :: dataFrameEvents bodies) =
          .ok (s', outs) ∧
        appMessages outs = []) := by
  constructor
  · have h1 := handleMessage_dataHeader cfg s hh
    have h2 : handleInternalWebSocketMessage cfg
          { s with receivedHeader := some dataHeaderMsg,
                   receiveSerial := s.receiveSerial + 1 } body =
        .ok ((dataBodyResult cfg
            { s with receivedHeader := some dataHeaderMsg,
                     receiveSerial := s.receiveSerial + 1 } body).1,
          (dataBodyResult cfg
            { s with receivedHeader := some dataHeaderMsg,
                     receiveSerial := s.receiveSerial + 1 } body).2) :=
      handleMessage_dataBody cfg
        { s with receivedHeader := some dataHeaderMsg,
                 receiveSerial := s.receiveSerial + 1 } body rfl
    obtain ⟨hm, hrs, hpd, _⟩ := dataBody_spec cfg
      { s with receivedHeader := some dataHeaderMsg,
               receiveSerial := s.receiveSerial + 1 } body
    refine ⟨_, _, run_cons_ok h1 (run_cons_ok h2 rfl), ?_, ?_⟩
    · simp only [List.nil_append, List.append_nil]
      rw [hm]
    · intro hdel
      obtain ⟨hd1, hd2⟩ := hdel
      have hp := hpd (show s.receiveSerial + 1 + 1 > s.processedSerial by omega)
      rw [hp, hrs]
  · intro hle
    have h0 := handleMessage_initialSerial cfg s n hh
    obtain ⟨s', outs, hrun, hm2, _, _, _⟩ :=
      run_dataFrames_no_redelivery cfg bodies { s with receiveSerial := n % 4294967296 }
        hh
        (by
          show n % 4294967296 + 2 * bodies.length ≤ s.processedSerial
          have := Nat.mod_le n 4294967296
          omega)
    exact ⟨s', [] ++ outs, run_cons_ok h0 hrun, by simpa using hm2⟩

/-- An OPEN engine whose peer has already delivered four logical frames
(two DATA messages, each occupying two serial slots). -/
def replayedState : RWSState :=
  { openEngineState with receiveSerial := 4, processedSerial := 4 }

/-- C1 witness: the claim evaluated on a concrete engine that already
processed two DATA frames, with a replay of those two frames after an
`INITIAL_SERIAL(0)` realignment. -/
theorem c1_witness :
    (∃ s' outs,
        run defaultConfig replayedState
            [Event.wsMessage dataHeaderMsg, Event.wsMessage (TransportMsg.bin [9])] =
          .ok (s', outs) ∧
        appMessages outs =
          (if replayedState.receiveSerial + 2 > replayedState.processedSerial ∧
              replayedState.readyState = .OPEN then [TransportMsg.bin [9]]
           else []) ∧
        (replayedState.receiveSerial + 2 > replayedState.processedSerial ∧
            replayedState.readyState = .OPEN →
          s'.processedSerial = s'.receiveSerial)) ∧
    (0 + 2 * [TransportMsg.bin [5], TransportMsg.bin [6]].length ≤
        replayedState.processedSerial →
      ∃ s' outs,
        run defaultConfig replayedState
            (Event.wsMessage (initialSerialMsg 0) ::
              dataFrameEvents [TransportMsg.bin [5], TransportMsg.bin [6]]) =
          .ok (s', outs) ∧
        appMessages outs = []) :=
  c1_delivery_iff_and_replay_idempotent defaultConfig replayedState (TransportMsg.bin [9])
    0 [TransportMsg.bin [5], TransportMsg.bin [6]] rfl

end Retransmit

namespace Retransmit

/-- C5 witness: the amended claim evaluated on a fresh OPEN engine. -/
theorem c5_witness :
    ∃ s' outs,
      run defaultConfig openEngineState
          [Event.wsMessage dataHeaderMsg, Event.wsMessage (TransportMsg.bin [5])] =
        .ok (s', outs) ∧
      s'.receiveSerial = openEngineState.receiveSerial + 2 :=
  c5_data_frame_increments_by_two defaultConfig openEngineState (TransportMsg.bin [5]) rfl

/-! ### Open-dispatch counting -/

theorem openCount_append (l1 l2 : List Output) :
    openCount (l1 ++ l2) = openCount l1 + openCount l2 := by
  simp [openCount, List.filter_append]

theorem openCount_wsSend_cons (m : TransportMsg) (l : List Output) :
    openCount (Output.wsSend m :: l) = openCount l := by
  simp [openCount, List.filter_cons, isOpenOut]

theorem openCount_appOpen_cons (l : List Output) :
    openCount (Output.appOpen :: l) = openCount l + 1 := by
  simp [openCount, List.filter_cons, isOpenOut]

theorem openCount_map_wsSend (l : List TransportMsg) :
    openCount (l.map Output.wsSend) = 0 := by
  induction l with
  | nil => rfl
  | cons a t ih => simpa [openCount_wsSend_cons] using ih

/-- Lemma: `closeInternal` dispatches no open event and never re-enters
CONNECTING. -/
theorem closeInternal_ok (s : RWSState) (e : CloseEvt) (s' : RWSState)
    (outs : List Output) (h : closeInternal s e = .ok (s', outs)) :
    openCount outs = 0 ∧ s'.readyState ≠ .CONNECTING ∧
      s'.pendingErrorEvent = s.pendingErrorEvent := by
  unfold closeInternal at h
  split at h
  · next hc =>
    simp only [Except.ok.injEq, Prod.mk.injEq] at h
    obtain ⟨hs', houts⟩ := h
    subst hs'
    subst houts
    exact ⟨rfl, by simp [hc], rfl⟩
  · split at h
    · exact Except.noConfusion h
    · simp only [Except.ok.injEq, Prod.mk.injEq] at h
      obtain ⟨hs', houts⟩ := h
      subst hs'
      subst houts
      refine ⟨?_, by simp, rfl⟩
      rw [openCount_append]
      split <;> rfl

end Retransmit

namespace Retransmit

theorem openCount_ite_appMessage (c : Prop) [Decidable c] (b : TransportMsg) :
    openCount (if c then [Output.appMessage b] else []) = 0 := by
  split <;> rfl

theorem sendAck_openCount (s : RWSState) : openCount (sendAck s).2 = 0 := by
  unfold sendAck
  split <;> rfl

theorem sendAck_readyState (s : RWSState) :
    (sendAck s).1.readyState = s.readyState := by
  unfold sendAck
  split <;> rfl

/-- The message handler dispatches no open event and never moves the
engine (back) into CONNECTING. -/
theorem handleMessage_openCount (cfg : Config) (s : RWSState) (d : TransportMsg)
    (s' : RWSState) (outs : List Output)
    (h : handleInternalWebSocketMessage cfg s d = .ok (s', outs)) :
    openCount outs = 0 ∧ (s'.readyState = .CONNECTING → s.readyState = .CONNECTING) := by
  unfold handleInternalWebSocketMessage at h
  dsimp only at h
  split at h
  · exact Except.noConfusion h
  · split at h
    · -- INITIAL_SERIAL
      simp only [Except.ok.injEq, Prod.mk.injEq] at h
      obtain ⟨hs', houts⟩ := h
      subst hs'
      subst houts
      exact ⟨rfl, fun hc => hc⟩
    · split at h
      · -- DATA_ACK
        simp only [Except.ok.injEq, Prod.mk.injEq] at h
        obtain ⟨hs', houts⟩ := h
        subst hs'
        subst houts
        exact ⟨rfl, fun hc => hc⟩
      · split at h
        · -- CLOSE_ACK
          split at h
          · next e heq =>
            split at h
            · exact Except.noConfusion h
            · next s2 outs2 hci =>
              obtain ⟨ho2, hrs2, _⟩ := closeInternal_ok _ e s2 outs2 hci
              simp only [Except.ok.injEq, Prod.mk.injEq] at h
              obtain ⟨hs', houts⟩ := h
              subst hs'
              subst houts
              constructor
              · split
                · rw [openCount_append, ho2]
                  rfl
                · exact ho2
              · intro hc
                exact absurd hc hrs2
          · exact Except.noConfusion h
        · split at h
          · -- CLOSE
            simp only [Except.ok.injEq, Prod.mk.injEq] at h
            obtain ⟨hs', houts⟩ := h
            subst hs'
            subst houts
            constructor
            · split <;> rfl
            · intro hc
              exact absurd hc (by simp)
          · split at h
            · -- DATA
              split at h
              · -- completed body
                simp only [Except.ok.injEq, Prod.mk.injEq] at h
                obtain ⟨hs', houts⟩ := h
                subst hs'
                subst houts
                constructor
                · rw [openCount_append, openCount_ite_appMessage]
                  simp only [Nat.zero_add]
                  repeat' split
                  all_goals first | exact sendAck_openCount _ | rfl
                · intro hc
                  revert hc
                  repeat' split
                  all_goals try simp only [sendAck_readyState, ensureUnacknowledgedTimeout_eq]
                  all_goals exact fun hc => hc
              · -- header only
                simp only [Except.ok.injEq, Prod.mk.injEq] at h
                obtain ⟨hs', houts⟩ := h
                subst hs'
                subst houts
                exact ⟨rfl, fun hc => hc⟩
            · -- unknown tag
              simp only [Except.ok.injEq, Prod.mk.injEq] at h
              obtain ⟨hs', houts⟩ := h
              subst hs'
              subst houts
              exact ⟨rfl, fun hc => hc⟩

end Retransmit

namespace Retransmit

theorem ensureClosedTimeoutTask_readyState (s : RWSState) (e : CloseEvt) :
    (ensureClosedTimeoutTask s e).readyState = s.readyState := by
  unfold ensureClosedTimeoutTask
  split <;> rfl

theorem openCount_sends (cond : Prop) [Decidable cond] (ser : Nat)
    (l : List TransportMsg) :
    openCount
      (if cond then Output.wsSend (initialSerialMsg ser) :: l.map Output.wsSend
       else []) = 0 := by
  split
  · rw [openCount_wsSend_cons, openCount_map_wsSend]
  · rfl

/-- The open handler dispatches the application open event exactly on the
`CONNECTING → OPEN` transition (clearing the pending error there), and
dispatches nothing and keeps the ready state on any later open. -/
theorem handleOpen_spec (s s' : RWSState) (outs : List Output)
    (h : handleInternalWebSocketOpen s = .ok (s', outs)) :
    (s.readyState = .CONNECTING →
      openCount outs = 1 ∧ s'.readyState = .OPEN ∧ s'.pendingErrorEvent = false) ∧
    (s.readyState ≠ .CONNECTING → openCount outs = 0 ∧ s'.readyState = s.readyState) := by
  unfold handleInternalWebSocketOpen cancelClosedTimeoutTask at h
  dsimp only at h
  split at h
  · exact Except.noConfusion h
  · split at h <;> split at h <;>
      (simp only [Except.ok.injEq, Prod.mk.injEq] at h
       obtain ⟨hs', houts⟩ := h
       subst hs'
       subst houts) <;>
      refine ⟨fun hc => ?_, fun hn => ?_⟩ <;>
      first
        | exact ⟨by rw [openCount_append, openCount_sends]; rfl, rfl, rfl⟩
        | exact ⟨openCount_sends _ _ _, rfl⟩
        | simp_all

theorem handleClose_spec (s : RWSState) (e : CloseEvt) (s' : RWSState)
    (outs : List Output) (h : handleInternalWebSocketClose s e = .ok (s', outs)) :
    openCount outs = 0 ∧ (s'.readyState = .CONNECTING → s.readyState = .CONNECTING) := by
  unfold handleInternalWebSocketClose at h
  split at h
  · simp only [Except.ok.injEq, Prod.mk.injEq] at h
    obtain ⟨hs', houts⟩ := h
    subst hs'
    subst houts
    exact ⟨rfl, by rw [ensureClosedTimeoutTask_readyState]; exact fun hc => hc⟩
  · split at h
    · obtain ⟨ho, hrs, _⟩ := closeInternal_ok s e s' outs h
      exact ⟨ho, fun hc => absurd hc hrs⟩
    · simp only [Except.ok.injEq, Prod.mk.injEq] at h
      obtain ⟨hs', houts⟩ := h
      subst hs'
      subst houts
      exact ⟨rfl, fun hc => hc⟩

theorem close_spec (s : RWSState) (c : Nat) (r : String) :
    openCount (close s c r).2 = 0 ∧
      ((close s c r).1.readyState = .CONNECTING → s.readyState = .CONNECTING) := by
  unfold close
  dsimp only
  split
  · exact ⟨rfl, fun hc => hc⟩
  · constructor
    · split <;> rfl
    · exact fun hc => absurd hc (by simp)

theorem send_spec (s : RWSState) (b : TransportMsg) :
    openCount (send s b).2 = 0 ∧ (send s b).1.readyState = s.readyState := by
  unfold send
  dsimp only
  split <;> exact ⟨rfl, rfl⟩

theorem closedTimeoutFire_spec (s : RWSState) (s' : RWSState) (outs : List Output)
    (h : closedTimeoutFire s = .ok (s', outs)) :
    openCount outs = 0 ∧ (s'.readyState = .CONNECTING → s.readyState = .CONNECTING) := by
  unfold closedTimeoutFire at h
  split at h
  · simp only [Except.ok.injEq, Prod.mk.injEq] at h
    obtain ⟨hs', houts⟩ := h
    subst hs'
    subst houts
    exact ⟨rfl, fun hc => hc⟩
  · obtain ⟨ho, hrs, _⟩ := closeInternal_ok _ _ s' outs h
    exact ⟨ho, fun hc => absurd hc hrs⟩

theorem unackFire_spec (s : RWSState) :
    openCount (unacknowledgedTimeoutFire s).2 = 0 ∧
      (unacknowledgedTimeoutFire s).1.readyState = s.readyState := by
  unfold unacknowledgedTimeoutFire
  split
  · exact ⟨sendAck_openCount _, sendAck_readyState _⟩
  · exact ⟨rfl, rfl⟩

end Retransmit

namespace Retransmit

/-- One step of the engine dispatches at most one open event; any open
dispatch happens exactly on the `CONNECTING → OPEN` transition and clears
the pending error; and no step moves the engine back into CONNECTING. -/
theorem step_open_spec (cfg : Config) (s : RWSState) (ev : Event) (s' : RWSState)
    (outs : List Output) (h : step cfg s ev = .ok (s', outs)) :
    openCount outs ≤ 1 ∧
    (0 < openCount outs →
      s.readyState = .CONNECTING ∧ s'.readyState = .OPEN ∧ s'.pendingErrorEvent = false) ∧
    (s'.readyState = .CONNECTING → s.readyState = .CONNECTING) := by
  cases ev with
  | wsOpen =>
    obtain ⟨hcon, hncon⟩ := handleOpen_spec _ s' outs h
    by_cases hc : s.readyState = ReadyState.CONNECTING
    · obtain ⟨ho1, ho2, ho3⟩ := hcon hc
      exact ⟨by omega, fun _ => ⟨hc, ho2, ho3⟩, fun _ => hc⟩
    · obtain ⟨ho1, ho2⟩ := hncon hc
      refine ⟨by omega, fun hpos => by omega, fun hc' => ?_⟩
      rw [ho2] at hc'
      exact hc'
  | wsMessage d =>
    obtain ⟨ho, hrs⟩ := handleMessage_openCount cfg s d s' outs h
    exact ⟨by omega, fun hpos => by omega, hrs⟩
  | wsError =>
    simp only [step, handleInternalWebSocketError, Except.ok.injEq, Prod.mk.injEq] at h
    obtain ⟨hs', houts⟩ := h
    subst hs'
    subst houts
    exact ⟨by decide, fun hpos => by simp [openCount] at hpos, fun hc => hc⟩
  | wsClosed e =>
    obtain ⟨ho, hrs⟩ := handleClose_spec _ e s' outs h
    exact ⟨by omega, fun hpos => by omega, hrs⟩
  | appSend b =>
    simp only [step, Except.ok.injEq] at h
    have houts : (send s b).2 = outs := by rw [h]
    have hs' : (send s b).1 = s' := by rw [h]
    obtain ⟨ho, hrs⟩ := send_spec s b
    rw [houts] at ho
    rw [hs'] at hrs
    exact ⟨by omega, fun hpos => by omega, fun hc => by rw [← hrs]; exact hc⟩
  | appCloseCall c r =>
    simp only [step, Except.ok.injEq] at h
    have houts : (close s c r).2 = outs := by rw [h]
    have hs' : (close s c r).1 = s' := by rw [h]
    obtain ⟨ho, hrs⟩ := close_spec s c r
    rw [houts] at ho
    rw [hs'] at hrs
    exact ⟨by omega, fun hpos => by omega, hrs⟩
  | useWs w =>
    simp only [step] at h
    unfold useWebSocket at h
    dsimp only at h
    split at h
    · obtain ⟨hcon, hncon⟩ := handleOpen_spec _ s' outs h
      by_cases hc : s.readyState = ReadyState.CONNECTING
      · obtain ⟨ho1, ho2, ho3⟩ := hcon hc
        exact ⟨by omega, fun _ => ⟨hc, ho2, ho3⟩, fun _ => hc⟩
      · obtain ⟨ho1, ho2⟩ := hncon hc
        refine ⟨by omega, fun hpos => by omega, fun hc' => ?_⟩
        rw [ho2] at hc'
        exact hc'
    · split at h
      · exact Except.noConfusion h
      · simp only [Except.ok.injEq, Prod.mk.injEq] at h
        obtain ⟨hs', houts⟩ := h
        subst hs'
        subst houts
        exact ⟨by decide, fun hpos => by simp [openCount] at hpos, fun hc => hc⟩
  | closeTimerFire =>
    obtain ⟨ho, hrs⟩ := closedTimeoutFire_spec s s' outs h
    exact ⟨by omega, fun hpos => by omega, hrs⟩
  | unackTimerFire =>
    simp only [step, Except.ok.injEq] at h
    have houts : (unacknowledgedTimeoutFire s).2 = outs := by rw [h]
    have hs' : (unacknowledgedTimeoutFire s).1 = s' := by rw [h]
    obtain ⟨ho, hrs⟩ := unackFire_spec s
    rw [houts] at ho
    rw [hs'] at hrs
    exact ⟨by omega, fun hpos => by omega, fun hc => by rw [← hrs]; exact hc⟩

end Retransmit

namespace Retransmit

/-- Once the engine has left CONNECTING, no trace of events dispatches any
further open event. -/
theorem run_openCount_zero (cfg : Config) :
    ∀ (evs : List Event) (s s' : RWSState) (outs : List Output),
      s.readyState ≠ .CONNECTING → run cfg s evs = .ok (s', outs) →
      openCount outs = 0 := by
  intro evs
  induction evs with
  | nil =>
    intro s s' outs hnc h
    simp only [run, Except.ok.injEq, Prod.mk.injEq] at h
    obtain ⟨_, houts⟩ := h
    subst houts
    rfl
  | cons e rest ih =>
    intro s s' outs hnc h
    simp only [run] at h
    cases hstep : step cfg s e with
    | error m => rw [hstep] at h; exact Except.noConfusion h
    | ok p =>
      obtain ⟨s1, o1⟩ := p
      rw [hstep] at h
      dsimp only at h
      cases hrun : run cfg s1 rest with
      | error m => rw [hrun] at h; exact Except.noConfusion h
      | ok q =>
        obtain ⟨s2, o2⟩ := q
        rw [hrun] at h
        simp only [Except.ok.injEq, Prod.mk.injEq] at h
        obtain ⟨hs2, houts⟩ := h
        subst houts
        obtain ⟨hle, hpos, hmono⟩ := step_open_spec cfg s e s1 o1 hstep
        have ho1 : openCount o1 = 0 := by
          by_contra hne
          exact hnc (hpos (Nat.pos_of_ne_zero hne)).1
        have hnc1 : s1.readyState ≠ .CONNECTING := fun hc => hnc (hmono hc)
        rw [openCount_append, ho1, ih s1 s2 o2 hnc1 hrun]

end Retransmit

namespace Retransmit

/-- Along any trace of events, at most one open event is dispatched. -/
theorem run_openCount_le_one (cfg : Config) :
    ∀ (evs : List Event) (s s' : RWSState) (outs : List Output),
      run cfg s evs = .ok (s', outs) → openCount outs ≤ 1 := by
  intro evs
  induction evs with
  | nil =>
    intro s s' outs h
    simp only [run, Except.ok.injEq, Prod.mk.injEq] at h
    obtain ⟨_, houts⟩ := h
    subst houts
    decide
  | cons e rest ih =>
    intro s s' outs h
    simp only [run] at h
    cases hstep : step cfg s e with
    | error m => rw [hstep] at h; exact Except.noConfusion h
    | ok p =>
      obtain ⟨s1, o1⟩ := p
      rw [hstep] at h
      dsimp only at h
      cases hrun : run cfg s1 rest with
      | error m => rw [hrun] at h; exact Except.noConfusion h
      | ok q =>
        obtain ⟨s2, o2⟩ := q
        rw [hrun] at h
        simp only [Except.ok.injEq, Prod.mk.injEq] at h
        obtain ⟨hs2, houts⟩ := h
        subst houts
        obtain ⟨hle, hpos, hmono⟩ := step_open_spec cfg s e s1 o1 hstep
        rw [openCount_append]
        by_cases h1 : 0 < openCount o1
        · have hs1open := (hpos h1).2.1
          have hnc1 : s1.readyState ≠ .CONNECTING := by
            rw [hs1open]
            decide
          rw [run_openCount_zero cfg rest s1 s2 o2 hnc1 hrun]
          omega
        · have ho1 : openCount o1 = 0 := by omega
          rw [ho1]
          have := ih s1 s2 o2 hrun
          omega

/-- C10: over the whole lifetime of one engine instance (any event trace
from the freshly constructed state), the application open event is
dispatched at most once; and any step of the engine that dispatches an
open event starts in CONNECTING, ends in OPEN, and clears the pending
transport error recorded while CONNECTING. -/
theorem c10_open_dispatched_at_most_once (cfg : Config) (evs : List Event)
    (s' : RWSState) (outs : List Output)
    (h : run cfg initialState evs = .ok (s', outs)) :
    openCount outs ≤ 1 ∧
    ∀ (t : RWSState) (ev : Event) (t' : RWSState) (o : List Output),
      step cfg t ev = .ok (t', o) → 0 < openCount o →
        t.readyState = .CONNECTING ∧ t'.readyState = .OPEN ∧
          t'.pendingErrorEvent = false :=
  ⟨run_openCount_le_one cfg evs initialState s' outs h,
   fun t ev t' o hs ho => (step_open_spec cfg t ev t' o hs).2.1 ho⟩

/-- C10 witness: a trace that installs an already-open transport dispatches
exactly one open event. -/
theorem c10_witness :
    openCount [Output.wsSend (initialSerialMsg 0), Output.appOpen] ≤ 1 ∧
    ∀ (t : RWSState) (ev : Event) (t' : RWSState) (o : List Output),
      step defaultConfig t ev = .ok (t', o) → 0 < openCount o →
        t.readyState = .CONNECTING ∧ t'.readyState = .OPEN ∧
          t'.pendingErrorEvent = false :=
  c10_open_dispatched_at_most_once defaultConfig [Event.useWs ReadyState.OPEN]
    { initialState with wsPresent := true, wsReadyState := .OPEN, readyState := .OPEN }
    [Output.wsSend (initialSerialMsg 0), Output.appOpen] rfl

end Retransmit
